import Mathlib

/-!
Verification of the open-parcel-map repository: the ALKIS downloader pipeline
(described by `tools/ALKIS_DOWNLOADER_README.md` and the specification; the
Python script itself is not part of the source tree, so the pipeline is
modelled from the spec) and the Leaflet front-end code in `src/main.js` and
the unnamed parcel variant.
-/

/- ### Generic character-level string helpers (structural, kernel-reducible) -/

/-- Split a character list at the first occurrence of `c`: returns the prefix
before `c` and, when `c` occurs, the remainder after it. -/
def breakAtChar (c : Char) : List Char → List Char × Option (List Char)
  | [] => ([], none)
  | a :: rest =>
    if a = c then ([], some rest)
    else
      let r := breakAtChar c rest
      (a :: r.1, r.2)

/-- Split a character list on every occurrence of `c` (separator not kept). -/
def splitOnChar (c : Char) : List Char → List (List Char)
  | [] => [[]]
  | a :: rest =>
    let r := splitOnChar c rest
    if a = c then [] :: r
    else
      match r with
      | [] => [[a]]
      | g :: gs => (a :: g) :: gs

/- ### Spec-modelled downloader: data model (§3 of the spec) -/

/-- Modelled from the spec: one entry of the feature catalog (§3 CatalogItem,
§6 feature-catalog record). The Python script `tools/alkis_downloader.py` is
not in the source tree; the record shape follows the spec's optional string
fields (`sourceURL` is the feature's `link_data`). -/
structure CatalogItem where
  sourceURL : Option String
  quartal : Option String
  flur : Option String
  gemarkung : Option String
  schlgmd : Option String
deriving Repr, DecidableEq

/-- Modelled from the spec: the derived per-item target (§3 ResolvedTarget). -/
structure ResolvedTarget where
  fileName : String
  relativeDir : String
  absolutePath : String
deriving Repr, DecidableEq

/-- An optional string is "present and non-empty". -/
def nonEmptyStr (o : Option String) : Option String :=
  o.bind fun s => if s.data.isEmpty then none else some s

/-- Modelled from the spec (§4.3 step 1): parse a URL's query component
(the part after the first `?`) for the value of parameter `key`; the value
is the text after the first `=` of the matching `&`-separated pair. -/
def queryParam (url : String) (key : String) : Option String :=
  match breakAtChar '?' url.data with
  | (_, none) => none
  | (_, some q) =>
    let pairs := (splitOnChar '&' q).map (breakAtChar '=')
    (pairs.find? fun p => p.1 == key.data).map fun p => String.mk (p.2.getD [])

/- ### Spec-modelled PathResolver (§4.3) -/

/-- Modelled from the spec: per-item path-resolution failure (§4.3 step 5). -/
inductive PathError where
  | UnresolvableFileName
deriving Repr, DecidableEq

/-- Modelled from the spec (§4.3): file-name derivation chain, first match
wins — `file` query parameter of `sourceURL`, then `flur`, then `gemarkung`,
then `schlgmd`, each used only when present and non-empty. -/
def resolveFileName (item : CatalogItem) : Option String :=
  match nonEmptyStr (item.sourceURL.bind fun u => queryParam u "file") with
  | some f => some f
  | none =>
    match nonEmptyStr item.flur with
    | some f => some f
    | none =>
      match nonEmptyStr item.gemarkung with
      | some f => some f
      | none => nonEmptyStr item.schlgmd

/-- Modelled from the spec (§4.3): target directory is `outputRoot/quartal/`
when `quartal` is present and non-empty, else `outputRoot/` directly. -/
def resolveDir (outputRoot : String) (item : CatalogItem) : String :=
  match nonEmptyStr item.quartal with
  | some q => outputRoot ++ "/" ++ q ++ "/"
  | none => outputRoot ++ "/"

/-- Modelled from the spec (§4.3): `resolve(item, outputRoot)`, failing with
`UnresolvableFileName` when no file name can be derived. -/
def PathResolver.resolve (item : CatalogItem) (outputRoot : String) :
    Except PathError ResolvedTarget :=
  match resolveFileName item with
  | none => .error .UnresolvableFileName
  | some fn =>
    .ok { fileName := fn
          relativeDir := (nonEmptyStr item.quartal).getD ""
          absolutePath := resolveDir outputRoot item ++ fn }

/-- The spec's own wording of the fallback chain (§4.2 file-name derivation
order, §8 fallback chain): the ordered candidate list. -/
def specCandidates (item : CatalogItem) : List (Option String) :=
  [item.sourceURL.bind fun u => queryParam u "file",
   item.flur, item.gemarkung, item.schlgmd]

/-- The spec's own wording: the first present-and-non-empty candidate. -/
def specFirstNonEmpty (item : CatalogItem) : Option String :=
  ((specCandidates item).filterMap nonEmptyStr).head?

/- ### Spec-modelled RangeSelector (§4.2) -/

/-- Modelled from the spec: fatal range-configuration failure (§4.2, §7). -/
inductive RangeError where
  | InvalidRange
deriving Repr, DecidableEq

/-- Modelled from the spec (§4.2): `select(items, startIndex, end?)` with
inclusive start, exclusive end (end omitted = to the end of the sequence);
fails with `InvalidRange` when `startIndex < 0`, when an explicit end bound
is less than `startIndex`, or when `startIndex` exceeds the length. -/
def RangeSelector.select (items : List CatalogItem) (startIndex : Int)
    (endIndex : Option Int) : Except RangeError (List CatalogItem) :=
  if startIndex < 0 then .error .InvalidRange
  else if (items.length : Int) < startIndex then .error .InvalidRange
  else
    match endIndex with
    | none => .ok (items.drop startIndex.toNat)
    | some e =>
      if e < startIndex then .error .InvalidRange
      else .ok ((items.take (min e.toNat items.length)).drop startIndex.toNat)

/- ### Spec-modelled ExistenceGate (§4.4) -/

/-- The filesystem modelled as the list of file paths present on disk. -/
abbrev FileSystem := List String

/-- A plain existence test on a path. -/
def fileExists (fs : FileSystem) (p : String) : Bool :=
  fs.contains p

/-- Modelled from the spec (§4.4): `shouldFetch(resolvedTarget, forceFlag)`
is `false` (skip) when the target file already exists on disk and the force
flag is unset, `true` otherwise; a plain existence test on the final
resolved path. -/
def ExistenceGate.shouldFetch (fs : FileSystem) (target : ResolvedTarget)
    (force : Bool) : Bool :=
  force || !(fileExists fs target.absolutePath)

/- ### Spec-modelled Fetcher (§4.5) -/

/-- Modelled from the spec: transient failure causes (§4.5: network error,
non-success status, timeout). -/
inductive FetchFailureCause where
  | networkError
  | nonSuccessStatus
  | timeout
deriving Repr, DecidableEq

/-- Outcome of a single retrieval attempt, as provided by the network. -/
inductive AttemptResult where
  | success
  | failure (cause : FetchFailureCause)
deriving Repr, DecidableEq

/-- Modelled from the spec: the fetcher's per-item result (§4.5). -/
inductive FetchResult where
  | Fetched
  | FailedAfterRetries (cause : FetchFailureCause)
deriving Repr, DecidableEq

/-- Modelled from the spec (§4.5): a fixed maximum of 3 total attempts. -/
def maxAttempts : Nat := 3

/-- One round of attempts: `attempt` is the index of the next attempt,
`remaining` the number of attempts still allowed, `lastCause` the cause of
the most recent transient failure. A successful attempt writes the
destination atomically (temporary file renamed into place), so the final
name appears on disk only on success; on exhaustion the filesystem is
unchanged. Returns (result, attempts made, filesystem). -/
def fetchGo (behavior : Nat → AttemptResult) (dest : String) (fs : FileSystem) :
    Nat → Nat → FetchFailureCause → FetchResult × Nat × FileSystem
  | attempt, 0, lastCause => (.FailedAfterRetries lastCause, attempt, fs)
  | attempt, remaining + 1, _ =>
    match behavior attempt with
    | .success => (.Fetched, attempt + 1, dest :: fs)
    | .failure c => fetchGo behavior dest fs (attempt + 1) remaining c

/-- Modelled from the spec (§4.5): `fetch(url, destinationPath)` driven by
the ambient network `behavior` (attempt index → attempt outcome), retrying
transient failures up to `maxAttempts` total attempts. -/
def Fetcher.fetch (behavior : Nat → AttemptResult) (dest : String)
    (fs : FileSystem) : FetchResult × Nat × FileSystem :=
  fetchGo behavior dest fs 0 maxAttempts .networkError

/- ### Spec-modelled Orchestrator (§4.6) -/

/-- Modelled from the spec: per-item run outcome (§3 RunOutcome; the extra
`SkippedUnresolvable` records §7's per-item non-fatal `UnresolvableFileName`,
which is logged and excluded from fetch). -/
inductive RunOutcome where
  | Fetched
  | SkippedExisting
  | SkippedMissingSource
  | FailedAfterRetries (cause : FetchFailureCause)
  | DryRunPlanned
  | SkippedUnresolvable
deriving Repr, DecidableEq, BEq

/-- A `FailedAfterRetries` outcome (any cause). -/
def isFailureOutcome : RunOutcome → Bool
  | .FailedAfterRetries _ => true
  | _ => false

/-- Modelled from the spec: run configuration (§4.6, §6). -/
structure RunConfig where
  outputRoot : String
  startIndex : Int
  endIndex : Option Int
  force : Bool
  dryRun : Bool
deriving Repr, DecidableEq

/-- Modelled from the spec: the run summary with per-category counts and the
ordered list of per-item outcomes (§4.6). -/
structure RunSummary where
  outcomes : List RunOutcome
  fetched : Nat
  skippedExisting : Nat
  skippedMissingSource : Nat
  failed : Nat
  planned : Nat
  skippedUnresolvable : Nat
deriving Repr, DecidableEq

/-- Aggregate the ordered outcome list into the summary counts. -/
def mkSummary (outcomes : List RunOutcome) : RunSummary where
  outcomes := outcomes
  fetched := outcomes.countP (· == .Fetched)
  skippedExisting := outcomes.countP (· == .SkippedExisting)
  skippedMissingSource := outcomes.countP (· == .SkippedMissingSource)
  failed := outcomes.countP isFailureOutcome
  planned := outcomes.countP (· == .DryRunPlanned)
  skippedUnresolvable := outcomes.countP (· == .SkippedUnresolvable)

/-- Modelled from the spec (§4.6, §3 invariant, README "Missing `link_data`
values are skipped with a warning"): process one selected item — a missing
`sourceURL` is recorded as skipped-with-warning and never fetched; an
unresolvable file name is logged and excluded from fetch; otherwise resolve
the path, consult the existence gate, and skip, simulate (dry-run) or invoke
the fetcher. Returns (outcome, fetch attempts made, filesystem). -/
def processItem (cfg : RunConfig) (behavior : Nat → AttemptResult)
    (fs : FileSystem) (item : CatalogItem) : RunOutcome × Nat × FileSystem :=
  match item.sourceURL with
  | none => (.SkippedMissingSource, 0, fs)
  | some _ =>
    match PathResolver.resolve item cfg.outputRoot with
    | .error _ => (.SkippedUnresolvable, 0, fs)
    | .ok target =>
      if ExistenceGate.shouldFetch fs target cfg.force then
        if cfg.dryRun then (.DryRunPlanned, 0, fs)
        else
          match Fetcher.fetch behavior target.absolutePath fs with
          | (.Fetched, n, fs') => (.Fetched, n, fs')
          | (.FailedAfterRetries c, n, fs') => (.FailedAfterRetries c, n, fs')
      else (.SkippedExisting, 0, fs)

/-- Modelled from the spec (§4.6): drive the per-item pipeline over the
selected items in order (`net` gives each position's network behavior),
accumulating outcomes, total fetch attempts and the filesystem. -/
def runItems (cfg : RunConfig) (net : Nat → Nat → AttemptResult) :
    FileSystem → Nat → List CatalogItem → List RunOutcome × Nat × FileSystem
  | fs, _, [] => ([], 0, fs)
  | fs, idx, item :: rest =>
    let r := processItem cfg (net idx) fs item
    let r' := runItems cfg net r.2.2 (idx + 1) rest
    (r.1 :: r'.1, r.2.1 + r'.2.1, r'.2.2)

/-- Modelled from the spec: fatal run errors (§7 taxonomy). -/
inductive RunError where
  | CatalogUnavailable
  | CatalogMalformed
  | InvalidRange
deriving Repr, DecidableEq

/-- Modelled from the spec (§4.6): `run(config)` — load the catalog
(`loadResult` is CatalogSource's answer), select the range, process every
selected item, and produce the summary; fatal errors abort before any
fetch. Returns the summary, the total number of fetch attempts and the
final filesystem. -/
def Orchestrator.run (cfg : RunConfig)
    (loadResult : Except RunError (List CatalogItem))
    (net : Nat → Nat → AttemptResult) (fs : FileSystem) :
    Except RunError (RunSummary × Nat × FileSystem) :=
  match loadResult with
  | .error e => .error e
  | .ok catalog =>
    match RangeSelector.select catalog cfg.startIndex cfg.endIndex with
    | .error _ => .error .InvalidRange
    | .ok selected =>
      let r := runItems cfg net fs 0 selected
      .ok (mkSummary r.1, r.2.1, r.2.2)

/- ### Number formatting: model of Intl.NumberFormat de-DE with 2 fraction digits -/

/-- The decimal digit character for `n % 10`. -/
def digitChar (n : Nat) : Char := Char.ofNat (48 + n % 10)

/-- Decimal digits of `n` in reverse order, fuel-driven (structural). -/
def natDigitsRevAux : Nat → Nat → List Char
  | 0, _ => []
  | fuel + 1, n => if n = 0 then [] else digitChar (n % 10) :: natDigitsRevAux fuel (n / 10)

/-- Decimal digit characters of `n`, most significant first. -/
def natDigits (n : Nat) : List Char :=
  if n = 0 then ['0'] else (natDigitsRevAux n n).reverse

/-- Insert a `.` thousands separator after every 3 digits, working on the
reversed digit list; fuel-driven (structural). -/
def groupRevAux : Nat → List Char → List Char
  | 0, ds => ds
  | fuel + 1, ds =>
    if ds.length ≤ 3 then ds
    else ds.take 3 ++ '.' :: groupRevAux fuel (ds.drop 3)

/-- German thousands grouping of a digit list (`1234567` ↦ `1.234.567`). -/
def groupThousands (digits : List Char) : List Char :=
  (groupRevAux digits.length digits.reverse).reverse

/-- `round(q * 100)` half away from zero (the default rounding of
`Intl.NumberFormat`), computed on the reduced fraction: for `q ≥ 0` this is
`⌊(200·num + den) / (2·den)⌋` and for `q < 0` its mirror image. -/
def scaledCents (q : ℚ) : ℤ :=
  if q.num < 0 then -(Int.fdiv (-200 * q.num + q.den) (2 * q.den))
  else Int.fdiv (200 * q.num + q.den) (2 * q.den)

/-- Exactly two fraction-digit characters for `f < 100`. -/
def twoDigitChars (f : Nat) : List Char :=
  [digitChar (f / 10), digitChar (f % 10)]

/-- Model of `new Intl.NumberFormat('de-DE', { minimumFractionDigits: 2,
maximumFractionDigits: 2 }).format`: round to 2 decimals half away from
zero, group the integer part with `.`, decimal comma, two fraction digits. -/
def intlFormatDeDE (q : ℚ) : String :=
  let n := scaledCents q
  let m := n.natAbs
  let sign : List Char := if n < 0 then ['-'] else []
  String.mk (sign ++ groupThousands (natDigits (m / 100)) ++ ',' :: twoDigitChars (m % 100))

/- ### Shared promise/exception embedding for the front-end scripts -/

/-- Result of evaluating a piece of JS: a value, or a raised/rejected
exception. -/
inductive JsResult (α : Type) where
  | value (a : α)
  | thrown
deriving Repr, DecidableEq

/-- What the network gives `fetch(url).then(r => r.json())`: a parsed body,
a rejected request, or a body that is not valid JSON. -/
inductive FetchResponse (α : Type) where
  | ok (body : α)
  | httpError
  | jsonError
deriving Repr, DecidableEq

/-- `p.then(f)`: a settled rejection passes through, a value feeds `f`. -/
def jsThen {α β σ : Type} (r : JsResult α × σ) (f : α → σ → JsResult β × σ) :
    JsResult β × σ :=
  match r with
  | (.value a, u) => f a u
  | (.thrown, u) => (.thrown, u)

/-- `p.catch(handler)` with a handler that only mutates the UI state: a
rejection runs the handler and recovers, a value passes through. -/
def jsCatch {α σ : Type} (r : JsResult α × σ) (handler : σ → σ) :
    JsResult Unit × σ :=
  match r with
  | (.thrown, u) => (.value (), handler u)
  | (.value _, u) => (.value (), u)

/-- The `fetch(url).then(r => r.json())` prefix of both scripts' chains. -/
def responseJson {α σ : Type} (resp : FetchResponse α) (u : σ) :
    JsResult α × σ :=
  match resp with
  | .ok d => (.value d, u)
  | .httpError => (.thrown, u)
  | .jsonError => (.thrown, u)

/- ### `src/main.js` (biotope/parcel map front-end) -/

namespace MainJs

/-- `formatPlaceName` from `src/main.js`: drop the first occurrence of
`", Stadt"` (JS `String.replace` with a string pattern replaces only the
first match). -/
def formatPlaceNameGo : List Char → List Char
  | [] => []
  | ',' :: ' ' :: 'S' :: 't' :: 'a' :: 'd' :: 't' :: rest => rest
  | a :: rest => a :: formatPlaceNameGo rest

/-- `formatPlaceName` from `src/main.js`. -/
def formatPlaceName (placeName : String) : String :=
  String.mk (formatPlaceNameGo placeName.data)

/-- `formatToAreaNumber` from `src/main.js`: above 2000 the value is divided
by 10000 and labelled `ha`, otherwise kept and labelled `qm`; formatted with
`Intl.NumberFormat('de-DE')` at exactly two fraction digits. -/
def formatToAreaNumber (number : ℚ) : String :=
  let vu : ℚ × String := if number > 2000 then (number / 10000, "ha") else (number, "qm")
  intlFormatDeDE vu.1 ++ " " ++ vu.2

/-- The JSON record consumed by `renderBiotopeMeta` (`null` fields are
`none`). -/
structure BiotopeData where
  geojson : String
  district : Option String
  municipality : Option String
  parcel_number : Option String
  field_number : Option String
  shape_area : ℚ
  valuable_biotope : Option Int
deriving Repr, DecidableEq

/-- The pieces of browser state `src/main.js` mutates. -/
structure UIState where
  currentLayer : Option Nat
  ribbon : Bool
  detailList : String
  sidebarHidden : Bool
  sidebarAbsolute : Bool
  aboutHidden : Bool
  sidebarContentHidden : Bool
deriving Repr, DecidableEq

/-- The `detailOutput` string built by `renderBiotopeMeta` (lines 63–84). -/
def detailOutput (data : BiotopeData) : String :=
  (match data.district with
   | some d => "<li><strong>Landkreis</strong><br><ul>" ++ d ++ "</ul></li>"
   | none => "") ++
  (match data.municipality with
   | some m => "<li><strong>Gemeinde</strong><br>" ++ m ++ "</li>"
   | none => "") ++
  (match data.parcel_number with
   | some p => "<li><strong>Gemarkungsnummer</strong><br>" ++ p ++ "</li>"
   | none => "") ++
  (match data.field_number with
   | some f => "<li><strong>Flurnummer</strong><br>" ++ f ++ "</li>"
   | none => "") ++
  (if data.shape_area > 0 then
     "<li><strong>Fläche</strong><br>" ++ formatToAreaNumber data.shape_area ++ "</li>"
   else "")

/-- `renderBiotopeMeta` from `src/main.js`: remove the current layer, parse
`data.geojson` (`JSON.parse` throws on invalid JSON — `parse` is the
JSON-parsing oracle, returning the new layer), add the layer, fill the
detail list, set the ribbon exactly when `valuable_biotope === 1`, and show
the sidebar. -/
def renderBiotopeMeta (parse : String → Option Nat) (data : BiotopeData)
    (ui : UIState) : JsResult Unit × UIState :=
  let ui1 := { ui with currentLayer := none }
  match parse data.geojson with
  | none => (.thrown, ui1)
  | some layer =>
    (.value (),
     { ui1 with
       currentLayer := some layer
       ribbon := data.valuable_biotope == some 1
       detailList := detailOutput data
       sidebarHidden := false
       sidebarAbsolute := true
       aboutHidden := true
       sidebarContentHidden := false })

/-- `cleanBiotopeMeta` from `src/main.js`: remove the current layer and the
ribbon, empty the detail list, hide the sidebar and its content, show the
about box. -/
def cleanBiotopeMeta (_ui : UIState) : UIState where
  currentLayer := none
  ribbon := false
  detailList := ""
  sidebarHidden := true
  sidebarAbsolute := false
  aboutHidden := false
  sidebarContentHidden := true

/-- `fetchBiotopeMeta` from `src/main.js`: the promise chain
`fetch(url).then(r => r.json()).then(renderBiotopeMeta).catch(cleanBiotopeMeta)`
inside a `try { … } catch { cleanBiotopeMeta() }`. -/
def fetchBiotopeMeta (parse : String → Option Nat) (resp : FetchResponse BiotopeData)
    (ui : UIState) : JsResult Unit × UIState :=
  let chain := jsCatch (jsThen (responseJson resp ui) (renderBiotopeMeta parse))
    cleanBiotopeMeta
  jsCatch chain cleanBiotopeMeta

end MainJs

/- ### `src/unnamed/part_000` (administrative-parcel map front-end) -/

namespace Part000

/-- `formatPlaceName` from the unnamed script: split on `", "`, reverse the
parts and join with a space. -/
def splitCommaSpace : List Char → List (List Char)
  | [] => [[]]
  | ',' :: ' ' :: rest => [] :: splitCommaSpace rest
  | a :: rest =>
    match splitCommaSpace rest with
    | [] => [[a]]
    | g :: gs => (a :: g) :: gs

/-- `formatPlaceName` from the unnamed script. -/
def formatPlaceName (placeName : String) : String :=
  String.mk (List.intercalate [' '] (splitCommaSpace placeName.data).reverse)

/-- `formatToAreaNumber` from the unnamed script: the unit is always `ha`
and the value is formatted unscaled. -/
def formatToAreaNumber (number : ℚ) : String :=
  intlFormatDeDE number ++ " " ++ "ha"

/-- The `geometry` object the unnamed script reads out of `data.geojson`. -/
structure ParcelGeo where
  type : String
  coordinates : String
deriving Repr, DecidableEq

/-- The JSON record consumed by `renderParcelMeta` (`null` fields are
`none`; a missing/`null` `geojson` makes the property access throw). -/
structure ParcelData where
  geojson : Option ParcelGeo
  parcel_number : Option String
  field_number : Option String
  cadastral_district_name : Option String
  cadastral_district_number : Option String
  municipality_name : Option String
  municipality_number : Option String
  district_name : Option String
  district_number : Option String
  area_hectares : ℚ
deriving Repr, DecidableEq

/-- The pieces of browser state the unnamed script mutates. -/
structure UIState where
  currentLayer : Option ParcelGeo
  detailList : String
  sidebarHidden : Bool
  sidebarAbsolute : Bool
  aboutHidden : Bool
  sidebarContentHidden : Bool
deriving Repr, DecidableEq

/-- The `detailOutput` string built by `renderParcelMeta` (lines 66–105). -/
def detailOutput (data : ParcelData) : String :=
  (match data.parcel_number with
   | some p => "<li><strong>Flurstück</strong><br>" ++ p ++ "</li>"
   | none => "") ++
  (match data.field_number with
   | some f => "<li><strong>Flur</strong><br>" ++ f ++ "</li>"
   | none => "") ++
  (match data.cadastral_district_name with
   | some c => "<li><strong>Gemarkung</strong><br>" ++ c ++ "</li>"
   | none => "") ++
  (match data.cadastral_district_number with
   | some c => "<li><strong>Gemarkungsschlüssel</strong><br>" ++ c ++ "</li>"
   | none => "") ++
  (match data.municipality_name with
   | some m => "<li><strong>Gemeinde</strong><br>" ++ formatPlaceName m ++ "</li>"
   | none => "") ++
  (match data.municipality_number with
   | some m => "<li><strong>Gemeindeschlüssel</strong><br>" ++ m ++ "</li>"
   | none => "") ++
  (match data.district_name with
   | some d => "<li><strong>Kreis</strong><br>" ++ formatPlaceName d ++ "</li>"
   | none => "") ++
  (match data.district_number with
   | some d => "<li><strong>Kreisschlüssel</strong><br>" ++ d ++ "</li>"
   | none => "") ++
  (if data.area_hectares > 0 then
     "<li><strong>Fläche</strong><br>" ++ formatToAreaNumber data.area_hectares ++ "</li>"
   else "")

/-- `renderParcelMeta` from the unnamed script: remove the current layer,
read `data.geojson.type`/`.coordinates` (throws when `geojson` is absent),
add the layer, fill the detail list and show the sidebar. -/
def renderParcelMeta (data : ParcelData) (ui : UIState) : JsResult Unit × UIState :=
  let ui1 := { ui with currentLayer := none }
  match data.geojson with
  | none => (.thrown, ui1)
  | some g =>
    (.value (),
     { ui1 with
       currentLayer := some g
       detailList := detailOutput data
       sidebarHidden := false
       sidebarAbsolute := true
       aboutHidden := true
       sidebarContentHidden := false })

/-- `cleanParcelMeta` from the unnamed script: remove the current layer,
empty the detail list, hide the sidebar and its content, show the about
box. -/
def cleanParcelMeta (_ui : UIState) : UIState where
  currentLayer := none
  detailList := ""
  sidebarHidden := true
  sidebarAbsolute := false
  aboutHidden := false
  sidebarContentHidden := true

/-- `fetchParcelMeta` from the unnamed script: the promise chain
`fetch(url).then(r => r.json()).then(renderParcelMeta).catch(cleanParcelMeta)`
inside a `try { … } catch { cleanParcelMeta() }`. -/
def fetchParcelMeta (resp : FetchResponse ParcelData) (ui : UIState) :
    JsResult Unit × UIState :=
  let chain := jsCatch (jsThen (responseJson resp ui) renderParcelMeta)
    cleanParcelMeta
  jsCatch chain cleanParcelMeta

end Part000

/- ### Theorems settling the claims -/

/-- C7: `ExistenceGate.shouldFetch` returns `false` exactly when the target
file already exists on disk and the force flag is unset, and `true` in every
other case; the decision is a plain existence test on the final resolved
path — it depends on the filesystem only through existence at that path, so
two filesystems agreeing there decide identically. -/
theorem existenceGate_shouldFetch_spec (fs : FileSystem) (target : ResolvedTarget)
    (force : Bool) :
    (ExistenceGate.shouldFetch fs target force = false ↔
      fileExists fs target.absolutePath = true ∧ force = false)
    ∧ ∀ fs2 : FileSystem,
        fileExists fs2 target.absolutePath = fileExists fs target.absolutePath →
        ExistenceGate.shouldFetch fs2 target force = ExistenceGate.shouldFetch fs target force := by
  constructor
  · cases force <;> cases h : fileExists fs target.absolutePath <;>
      simp [ExistenceGate.shouldFetch, h]
  · intro fs2 h
    simp [ExistenceGate.shouldFetch, h]

/-- Witness for C7: an existing target with the force flag unset is skipped,
and the decision is unchanged across filesystems agreeing at the path. -/
theorem existenceGate_witness :
    ExistenceGate.shouldFetch ["r/f"] ⟨"f", "", "r/f"⟩ false = false
    ∧ ExistenceGate.shouldFetch [] ⟨"f", "", "r/f"⟩ true =
        ExistenceGate.shouldFetch ["x"] ⟨"f", "", "r/f"⟩ true :=
  ⟨(existenceGate_shouldFetch_spec ["r/f"] ⟨"f", "", "r/f"⟩ false).1.mpr ⟨by decide, rfl⟩,
   (existenceGate_shouldFetch_spec ["x"] ⟨"f", "", "r/f"⟩ true).2 [] (by decide)⟩


/-- C8: `RangeSelector.select` fails with `InvalidRange` exactly when
`startIndex < 0`, or an explicit end bound is less than `startIndex`, or
`startIndex` exceeds the sequence length; a well-formed range that is merely
out of data (`startIndex` at the very end) returns an empty result, not an
error. -/
theorem rangeSelector_invalidRange_iff (items : List CatalogItem) (s : Int)
    (e? : Option Int) :
    (RangeSelector.select items s e? = .error .InvalidRange ↔
      s < 0 ∨ (∃ e, e? = some e ∧ e < s) ∨ (items.length : Int) < s)
    ∧ (s = (items.length : Int) → (∀ e ∈ e?, s ≤ e) →
        RangeSelector.select items s e? = .ok []) := by
  constructor
  · rcases e? with _ | e
    · by_cases h0 : s < 0 <;> by_cases h1 : (items.length : Int) < s <;>
        simp [RangeSelector.select, h0, h1]
    · by_cases h0 : s < 0 <;> by_cases h1 : (items.length : Int) < s <;>
        by_cases h2 : e < s <;> simp [RangeSelector.select, h0, h1, h2]
  · intro hs he
    have h0 : ¬ s < 0 := by omega
    have h1 : ¬ (items.length : Int) < s := by omega
    rcases e? with _ | e
    · simp [RangeSelector.select, h0, h1]
      omega
    · have h2 : ¬ e < s := by simpa using he e
      simp [RangeSelector.select, h0, h1, h2]
      omega

/-- Witness for C8: a negative start index errors; start index at the end
of a singleton catalog returns an empty selection. -/
theorem rangeSelector_invalidRange_witness :
    RangeSelector.select [⟨none, none, none, none, none⟩] (-1) none = .error .InvalidRange
    ∧ RangeSelector.select [⟨none, none, none, none, none⟩] 1 (some 5) = .ok [] :=
  ⟨(rangeSelector_invalidRange_iff [⟨none, none, none, none, none⟩] (-1) none).1.mpr
      (Or.inl (by norm_num)),
   (rangeSelector_invalidRange_iff [⟨none, none, none, none, none⟩] 1 (some 5)).2
      (by norm_num) (by intro e h; simp at h; omega)⟩

/-- C3: for a catalog of length `N` and a well-formed range `[s, e)`,
`RangeSelector.select` returns exactly `max(0, min(e, N) - s)` items (the
`max` is the stated lower clamp; under well-formedness the count equals
`min e N - s`), the result is an infix of the catalog (original order);
`[0, N)` returns the whole catalog and `s = N` returns an empty selection
without error. -/
theorem rangeSelector_select_count (items : List CatalogItem) (s e : Int)
    (hs0 : 0 ≤ s) (hsN : s ≤ (items.length : Int)) (hse : s ≤ e) :
    (∃ res, RangeSelector.select items s (some e) = .ok res ∧
      (res.length : Int) = min e (items.length : Int) - s ∧ res <:+: items)
    ∧ RangeSelector.select items 0 (some (items.length : Int)) = .ok items
    ∧ (s = (items.length : Int) → RangeSelector.select items s (some e) = .ok []) := by
  have h0 : ¬ s < 0 := by omega
  have h1 : ¬ (items.length : Int) < s := by omega
  have h2 : ¬ e < s := by omega
  refine ⟨⟨(items.take (min e.toNat items.length)).drop s.toNat, ?_, ?_, ?_⟩, ?_, ?_⟩
  · simp [RangeSelector.select, h0, h1, h2]
  · simp [List.length_take]
    omega
  · exact ((List.drop_suffix _ _).isInfix).trans ((List.take_prefix _ _).isInfix)
  · have h3 : ¬ (items.length : Int) < 0 := by omega
    simp [RangeSelector.select, h3]
  · intro hs
    simp [RangeSelector.select, h0, h1, h2]
    omega

/-- Witness for C3 at a two-item catalog with range `[1, 5)`. -/
theorem rangeSelector_select_count_witness :
    (∃ res, RangeSelector.select [⟨none, none, none, none, none⟩, ⟨none, none, none, none, none⟩]
        1 (some 5) = .ok res ∧ (res.length : Int) = min 5 (2 : Int) - 1 ∧
        res <:+: [⟨none, none, none, none, none⟩, ⟨none, none, none, none, none⟩])
    ∧ RangeSelector.select [⟨none, none, none, none, none⟩, ⟨none, none, none, none, none⟩]
        0 (some 2) = .ok [⟨none, none, none, none, none⟩, ⟨none, none, none, none, none⟩] := by
  have h := rangeSelector_select_count
    [⟨none, none, none, none, none⟩, ⟨none, none, none, none, none⟩] 1 5
    (by norm_num) (by norm_num) (by norm_num)
  exact ⟨h.1, h.2.1⟩

/-- Helper for C2: the operational fallback chain equals the spec's
first-present-and-non-empty candidate of the ordered list. -/
theorem resolveFileName_eq_specFirstNonEmpty (item : CatalogItem) :
    resolveFileName item = specFirstNonEmpty item := by
  unfold resolveFileName specFirstNonEmpty specCandidates
  cases h1 : nonEmptyStr (item.sourceURL.bind fun u => queryParam u "file") <;>
    cases h2 : nonEmptyStr item.flur <;>
      cases h3 : nonEmptyStr item.gemarkung <;>
        cases h4 : nonEmptyStr item.schlgmd <;>
          simp [List.filterMap_cons, h1, h2, h3, h4]

/-- C2: `PathResolver.resolve` fails with `UnresolvableFileName` exactly when
all four file-name candidates (the `file` query parameter of `sourceURL`,
`flur`, `gemarkung`, `schlgmd`) are absent or empty; otherwise the file name
is the first non-empty candidate in that fixed order, and the resolved
directory is `outputRoot/quartal/` when `quartal` is present and non-empty,
else `outputRoot/` directly. -/
theorem pathResolver_resolve_spec (item : CatalogItem) (root : String) :
    (PathResolver.resolve item root = .error .UnresolvableFileName ↔
      nonEmptyStr (item.sourceURL.bind fun u => queryParam u "file") = none
      ∧ nonEmptyStr item.flur = none ∧ nonEmptyStr item.gemarkung = none
      ∧ nonEmptyStr item.schlgmd = none)
    ∧ (∀ f, specFirstNonEmpty item = some f →
        ∃ t, PathResolver.resolve item root = .ok t ∧ t.fileName = f ∧
          t.absolutePath = resolveDir root item ++ f)
    ∧ (∀ q, nonEmptyStr item.quartal = some q →
        resolveDir root item = root ++ "/" ++ q ++ "/")
    ∧ (nonEmptyStr item.quartal = none → resolveDir root item = root ++ "/") := by
  refine ⟨?_, ?_, ?_, ?_⟩
  · unfold PathResolver.resolve
    rw [resolveFileName_eq_specFirstNonEmpty]
    unfold specFirstNonEmpty specCandidates
    cases h1 : nonEmptyStr (item.sourceURL.bind fun u => queryParam u "file") <;>
      cases h2 : nonEmptyStr item.flur <;>
        cases h3 : nonEmptyStr item.gemarkung <;>
          cases h4 : nonEmptyStr item.schlgmd <;>
            simp [List.filterMap_cons, h1, h2, h3, h4]
  · intro f hf
    unfold PathResolver.resolve
    rw [resolveFileName_eq_specFirstNonEmpty, hf]
    exact ⟨_, rfl, rfl, rfl⟩
  · intro q hq
    unfold resolveDir
    rw [hq]
  · intro hq
    unfold resolveDir
    rw [hq]

/-- Witness for C2: an item whose URL has no `file` parameter falls back to
`flur`, grouped under its `quartal`; an item with no usable candidate
errors. -/
theorem pathResolver_resolve_witness :
    (∃ t, PathResolver.resolve ⟨some "https://h/p?id=4", some "2024-Q1", some "flur7", none, none⟩
        "out" = .ok t ∧ t.fileName = "flur7" ∧
        t.absolutePath = resolveDir "out" ⟨some "https://h/p?id=4", some "2024-Q1", some "flur7", none, none⟩ ++ "flur7")
    ∧ resolveDir "out" ⟨some "https://h/p?id=4", some "2024-Q1", some "flur7", none, none⟩ =
        "out" ++ "/" ++ "2024-Q1" ++ "/"
    ∧ PathResolver.resolve ⟨some "u", none, none, none, some ""⟩ "out" =
        .error .UnresolvableFileName := by
  have h := pathResolver_resolve_spec
    ⟨some "https://h/p?id=4", some "2024-Q1", some "flur7", none, none⟩ "out"
  have h2 := pathResolver_resolve_spec ⟨some "u", none, none, none, some ""⟩ "out"
  exact ⟨h.2.1 "flur7" (by decide), h.2.2.1 "2024-Q1" (by decide),
    h2.1.mpr ⟨by decide, by decide, by decide, by decide⟩⟩

/-- C4: the fetcher makes at most 3 total attempts; two transient failures
followed by a success on the third attempt are recorded as `Fetched`;
failure on all 3 attempts is recorded as `FailedAfterRetries` and leaves the
filesystem unchanged — no partial file appears at the destination path. -/
theorem fetcher_retry_bound (behavior : Nat → AttemptResult) (dest : String)
    (fs : FileSystem) :
    (Fetcher.fetch behavior dest fs).2.1 ≤ 3
    ∧ (behavior 0 ≠ .success → behavior 1 ≠ .success → behavior 2 = .success →
        (Fetcher.fetch behavior dest fs).1 = .Fetched)
    ∧ ((∀ i, i < 3 → behavior i ≠ .success) →
        (∃ c, (Fetcher.fetch behavior dest fs).1 = .FailedAfterRetries c)
        ∧ (Fetcher.fetch behavior dest fs).2.2 = fs) := by
  unfold Fetcher.fetch maxAttempts
  rcases h0 : behavior 0 with _ | c0 <;> rcases h1 : behavior 1 with _ | c1 <;>
    rcases h2 : behavior 2 with _ | c2 <;>
      simp [fetchGo, h0, h1, h2]
  all_goals first
    | exact ⟨0, by norm_num, h0⟩
    | exact ⟨1, by norm_num, h1⟩
    | exact ⟨2, by norm_num, h2⟩

/-- Witness for C4: success on the third attempt fetches; three failures
leave the filesystem unchanged. -/
theorem fetcher_retry_bound_witness :
    (Fetcher.fetch (fun i => if i = 2 then .success else .failure .timeout) "d" []).1 = .Fetched
    ∧ (Fetcher.fetch (fun _ => .failure .timeout) "d" []).2.2 = [] :=
  ⟨(fetcher_retry_bound (fun i => if i = 2 then .success else .failure .timeout) "d" []).2.1
      (by decide) (by decide) (by decide),
   ((fetcher_retry_bound (fun _ => .failure .timeout) "d" []).2.2 (by decide)).2⟩

/-- C6: an item with no `sourceURL` is never fetched — processing it makes
zero fetch attempts, leaves the filesystem unchanged and records
`SkippedMissingSource`; and a `SkippedMissingSource` outcome does not change
the run summary's failure total. -/
theorem missingSource_never_fetched (cfg : RunConfig) (behavior : Nat → AttemptResult)
    (fs : FileSystem) (item : CatalogItem) (h : item.sourceURL = none) :
    processItem cfg behavior fs item = (.SkippedMissingSource, 0, fs)
    ∧ ∀ outcomes, (mkSummary (RunOutcome.SkippedMissingSource :: outcomes)).failed =
        (mkSummary outcomes).failed := by
  constructor
  · simp [processItem, h]
  · intro outcomes
    simp [mkSummary, List.countP_cons, isFailureOutcome]

/-- Witness for C6 at a concrete configuration and item. -/
theorem missingSource_never_fetched_witness :
    processItem ⟨"out", 0, none, false, false⟩ (fun _ => .success) []
      ⟨none, none, none, none, none⟩ = (.SkippedMissingSource, 0, [])
    ∧ (mkSummary [RunOutcome.SkippedMissingSource]).failed = (mkSummary []).failed := by
  have h := missingSource_never_fetched ⟨"out", 0, none, false, false⟩ (fun _ => .success) []
    ⟨none, none, none, none, none⟩ rfl
  exact ⟨h.1, h.2 []⟩

/-- Existence on the modelled filesystem is list membership. -/
theorem fileExists_iff_mem (fs : FileSystem) (p : String) :
    fileExists fs p = true ↔ p ∈ fs := by
  simp [fileExists, List.contains, List.elem_iff]

/-- A fetch either succeeds and writes exactly the destination, or fails
after retries and leaves the filesystem unchanged. -/
theorem fetchGo_fs_cases (behavior : Nat → AttemptResult) (dest : String)
    (fs : FileSystem) :
    ∀ (remaining attempt : Nat) (c : FetchFailureCause),
      ((fetchGo behavior dest fs attempt remaining c).1 = .Fetched ∧
        (fetchGo behavior dest fs attempt remaining c).2.2 = dest :: fs)
      ∨ ((∃ c2, (fetchGo behavior dest fs attempt remaining c).1 = .FailedAfterRetries c2) ∧
          (fetchGo behavior dest fs attempt remaining c).2.2 = fs) := by
  intro remaining
  induction remaining with
  | zero => intro attempt c; right; exact ⟨⟨c, rfl⟩, rfl⟩
  | succ n ih =>
    intro attempt c
    cases h : behavior attempt with
    | success => left; simp [fetchGo, h]
    | failure c2 => simpa [fetchGo, h] using ih (attempt + 1) c2

/-- Processing an item never removes files. -/
theorem processItem_fs_mono (cfg : RunConfig) (behavior : Nat → AttemptResult)
    (fs : FileSystem) (item : CatalogItem) :
    fs ⊆ (processItem cfg behavior fs item).2.2 := by
  unfold processItem
  cases hu : item.sourceURL with
  | none => simp
  | some u =>
    cases hr : PathResolver.resolve item cfg.outputRoot with
    | error e => simp
    | ok t =>
      by_cases hg : ExistenceGate.shouldFetch fs t cfg.force <;> simp [hg]
      by_cases hd : cfg.dryRun <;> simp [hd]
      rcases fetchGo_fs_cases behavior t.absolutePath fs 3 0 .networkError with
        ⟨h1, h2⟩ | ⟨⟨c2, h1⟩, h2⟩ <;>
        rcases hf : Fetcher.fetch behavior t.absolutePath fs with ⟨r, n, fs2⟩ <;>
          rcases r with _ | c3 <;>
            simp_all [Fetcher.fetch, maxAttempts]

/-- The run loop never removes files. -/
theorem runItems_fs_mono (cfg : RunConfig) (net : Nat → Nat → AttemptResult) :
    ∀ (items : List CatalogItem) (fs : FileSystem) (idx : Nat),
      fs ⊆ (runItems cfg net fs idx items).2.2 := by
  intro items
  induction items with
  | nil => intro fs idx; simp [runItems]
  | cons item rest ih =>
    intro fs idx
    simp only [runItems]
    exact (processItem_fs_mono cfg (net idx) fs item).trans (ih _ _)

/-- The run loop emits exactly one outcome per item. -/
theorem runItems_length (cfg : RunConfig) (net : Nat → Nat → AttemptResult) :
    ∀ (items : List CatalogItem) (fs : FileSystem) (idx : Nat),
      (runItems cfg net fs idx items).1.length = items.length := by
  intro items
  induction items with
  | nil => intro fs idx; simp [runItems]
  | cons item rest ih =>
    intro fs idx
    simp only [runItems, List.length_cons]
    rw [ih]

/-- With the force flag unset, an item recorded `Fetched` or
`SkippedExisting` resolved to a target whose file exists afterwards. -/
theorem processItem_ok_outcome (cfg : RunConfig) (behavior : Nat → AttemptResult)
    (fs : FileSystem) (item : CatalogItem) (hforce : cfg.force = false)
    (h : (processItem cfg behavior fs item).1 = .Fetched ∨
         (processItem cfg behavior fs item).1 = .SkippedExisting) :
    ∃ t, PathResolver.resolve item cfg.outputRoot = .ok t ∧ item.sourceURL ≠ none ∧
      fileExists (processItem cfg behavior fs item).2.2 t.absolutePath = true := by
  rcases hu : item.sourceURL with _ | u
  · simp [processItem, hu] at h
  rcases hr : PathResolver.resolve item cfg.outputRoot with e | t
  · simp [processItem, hu, hr] at h
  refine ⟨t, rfl, by simp [hu], ?_⟩
  by_cases hg : ExistenceGate.shouldFetch fs t cfg.force
  · by_cases hd : cfg.dryRun
    · simp [processItem, hu, hr, hg, hd] at h
    · rcases fetchGo_fs_cases behavior t.absolutePath fs 3 0 .networkError with
        ⟨h1, h2⟩ | ⟨⟨c2, h1⟩, h2⟩ <;>
        rcases hf : Fetcher.fetch behavior t.absolutePath fs with ⟨r, n, fs2⟩ <;>
          rcases r with _ | c3 <;>
            simp_all [processItem, hu, hr, hg, hd, Fetcher.fetch, maxAttempts,
              fileExists_iff_mem]
  · have hex : fileExists fs t.absolutePath = true := by
      rcases hb : fileExists fs t.absolutePath
      · simp [ExistenceGate.shouldFetch, hforce, hb] at hg
      · rfl
    simp [processItem, hu, hr, hg, hex]

/-- With the force flag unset, an item whose resolved target exists is
recorded `SkippedExisting` with no attempts and no filesystem change. -/
theorem processItem_skips_existing (cfg : RunConfig) (behavior : Nat → AttemptResult)
    (fs : FileSystem) (item : CatalogItem) (t : ResolvedTarget)
    (hforce : cfg.force = false) (hu : item.sourceURL ≠ none)
    (ht : PathResolver.resolve item cfg.outputRoot = .ok t)
    (hex : fileExists fs t.absolutePath = true) :
    processItem cfg behavior fs item = (.SkippedExisting, 0, fs) := by
  rcases hu2 : item.sourceURL with _ | u
  · exact absurd hu2 hu
  simp [processItem, hu2, ht, ExistenceGate.shouldFetch, hex, hforce]

/-- Second-run lemma: if a first pass produced only `Fetched` or
`SkippedExisting`, a pass over the same items on any filesystem containing
the first pass's files skips every item with zero attempts. -/
theorem runItems_second_run (cfg : RunConfig) (net1 : Nat → Nat → AttemptResult)
    (hforce : cfg.force = false) :
    ∀ (items : List CatalogItem) (fs1 : FileSystem) (idx1 : Nat),
      (∀ o ∈ (runItems cfg net1 fs1 idx1 items).1,
        o = RunOutcome.Fetched ∨ o = RunOutcome.SkippedExisting) →
      ∀ (fs2 : FileSystem), (runItems cfg net1 fs1 idx1 items).2.2 ⊆ fs2 →
      ∀ (net2 : Nat → Nat → AttemptResult) (idx2 : Nat),
        runItems cfg net2 fs2 idx2 items =
          (items.map fun _ => RunOutcome.SkippedExisting, 0, fs2) := by
  intro items
  induction items with
  | nil => intro fs1 idx1 _ fs2 _ net2 idx2; simp [runItems]
  | cons item rest ih =>
    intro fs1 idx1 hall fs2 hsub net2 idx2
    have hhead : (processItem cfg (net1 idx1) fs1 item).1 = RunOutcome.Fetched ∨
        (processItem cfg (net1 idx1) fs1 item).1 = RunOutcome.SkippedExisting := by
      apply hall
      simp only [runItems]
      exact List.mem_cons_self _ _
    have htail : ∀ o ∈ (runItems cfg net1 (processItem cfg (net1 idx1) fs1 item).2.2
        (idx1 + 1) rest).1, o = RunOutcome.Fetched ∨ o = RunOutcome.SkippedExisting := by
      intro o ho
      apply hall
      simp only [runItems]
      exact List.mem_cons_of_mem _ ho
    have hsub2 : (runItems cfg net1 (processItem cfg (net1 idx1) fs1 item).2.2
        (idx1 + 1) rest).2.2 ⊆ fs2 := by
      simpa only [runItems] using hsub
    obtain ⟨t, ht, hu, hex⟩ := processItem_ok_outcome cfg (net1 idx1) fs1 item hforce hhead
    have hex2 : fileExists fs2 t.absolutePath = true := by
      rw [fileExists_iff_mem] at hex ⊢
      exact hsub2 ((runItems_fs_mono cfg net1 rest _ (idx1 + 1)) hex)
    have hskip := processItem_skips_existing cfg (net2 idx2) fs2 item t hforce hu ht hex2
    simp only [runItems, hskip, List.map_cons]
    rw [ih _ (idx1 + 1) htail fs2 hsub2 net2 (idx2 + 1)]
    simp

/-- C1 (amended): for every configuration with the force flag unset, if a
first run records every processed item as `Fetched` or `SkippedExisting`,
then a second run with identical configuration started on the first run's
final filesystem performs zero fetch attempts, leaves the filesystem
unchanged and records every item as `SkippedExisting`. -/
theorem run_idempotent_after_clean_run (cfg : RunConfig)
    (catalog : List CatalogItem) (net1 net2 : Nat → Nat → AttemptResult)
    (fs : FileSystem) (summary1 : RunSummary) (n1 : Nat) (fs1 : FileSystem)
    (hforce : cfg.force = false)
    (h1 : Orchestrator.run cfg (.ok catalog) net1 fs = .ok (summary1, n1, fs1))
    (hall : ∀ o ∈ summary1.outcomes,
      o = RunOutcome.Fetched ∨ o = RunOutcome.SkippedExisting) :
    ∃ summary2, Orchestrator.run cfg (.ok catalog) net2 fs1 = .ok (summary2, 0, fs1)
      ∧ (∀ o ∈ summary2.outcomes, o = RunOutcome.SkippedExisting)
      ∧ summary2.outcomes.length = summary1.outcomes.length := by
  rcases hsel : RangeSelector.select catalog cfg.startIndex cfg.endIndex with e | selected
  · simp [Orchestrator.run, hsel] at h1
  simp only [Orchestrator.run, hsel] at h1 ⊢
  simp only [Except.ok.injEq, Prod.mk.injEq] at h1
  obtain ⟨hsum, hn, hfs⟩ := h1
  have hall2 : ∀ o ∈ (runItems cfg net1 fs 0 selected).1,
      o = RunOutcome.Fetched ∨ o = RunOutcome.SkippedExisting := by
    intro o ho
    apply hall
    rw [← hsum]
    exact ho
  have hrun2 := runItems_second_run cfg net1 hforce selected fs 0 hall2 fs1
    (by rw [hfs]; exact fun x hx => hx) net2 0
  refine ⟨mkSummary (selected.map fun _ => RunOutcome.SkippedExisting), ?_, ?_, ?_⟩
  · rw [hrun2]
  · intro o ho
    simp only [mkSummary, List.mem_map] at ho
    obtain ⟨x, _, hxo⟩ := ho
    exact hxo.symm
  · rw [← hsum]
    simp [mkSummary, runItems_length]

/-- C1 counterexample: with the force flag unset, on a catalog whose single
item has no `sourceURL`, the run leaves the filesystem empty and unchanged,
so the second run with identical configuration is this very computation —
and it records the item as `SkippedMissingSource`, not `SkippedExisting`,
refuting the claim that every item of the second run is recorded as
`SkippedExisting`. -/
theorem run_idempotence_counterexample :
    Orchestrator.run ⟨"out", 0, none, false, false⟩
        (.ok [⟨none, none, none, none, none⟩]) (fun _ _ => .failure .networkError) [] =
      .ok (mkSummary [RunOutcome.SkippedMissingSource], 0, [])
    ∧ (mkSummary [RunOutcome.SkippedMissingSource]).outcomes ≠
        [RunOutcome.SkippedExisting] := by
  constructor
  · rfl
  · simp [mkSummary]

/-- Witness for C1 (amended): after a first run that fetched its single
item to `out/a.zip`, the second run skips it as existing. -/
theorem run_idempotent_witness :
    ∃ summary2, Orchestrator.run ⟨"out", 0, none, false, false⟩
        (.ok [⟨some "u?file=a.zip", none, none, none, none⟩])
        (fun _ _ => .failure .timeout) ["out/a.zip"] = .ok (summary2, 0, ["out/a.zip"])
      ∧ (∀ o ∈ summary2.outcomes, o = RunOutcome.SkippedExisting)
      ∧ summary2.outcomes.length = (mkSummary [RunOutcome.Fetched]).outcomes.length :=
  run_idempotent_after_clean_run ⟨"out", 0, none, false, false⟩
    [⟨some "u?file=a.zip", none, none, none, none⟩] (fun _ _ => .success)
    (fun _ _ => .failure .timeout) [] (mkSummary [RunOutcome.Fetched]) 1 ["out/a.zip"]
    rfl (by rfl) (by simp [mkSummary])

/-- C5 (amended): whenever the catalog loads and the range selection
succeeds, the run returns a summary with exactly one outcome per selected
item — no per-item failure terminates the iteration early; the run returns
an error only when catalog loading failed or the range configuration is
invalid. -/
theorem run_isolation (cfg : RunConfig) (loadResult : Except RunError (List CatalogItem))
    (net : Nat → Nat → AttemptResult) (fs : FileSystem) :
    (∀ catalog selected, loadResult = .ok catalog →
      RangeSelector.select catalog cfg.startIndex cfg.endIndex = .ok selected →
      ∃ s n fs2, Orchestrator.run cfg loadResult net fs = .ok (s, n, fs2)
        ∧ s.outcomes.length = selected.length)
    ∧ (∀ e, Orchestrator.run cfg loadResult net fs = .error e →
      loadResult = .error e ∨ ∃ catalog, loadResult = .ok catalog ∧
        RangeSelector.select catalog cfg.startIndex cfg.endIndex = .error .InvalidRange) := by
  constructor
  · intro catalog selected hload hsel
    subst hload
    refine ⟨mkSummary (runItems cfg net fs 0 selected).1, (runItems cfg net fs 0 selected).2.1,
      (runItems cfg net fs 0 selected).2.2, ?_, ?_⟩
    · simp [Orchestrator.run, hsel]
    · simp [mkSummary, runItems_length]
  · intro e herr
    rcases loadResult with e2 | catalog
    · left
      have he : e2 = e := by simpa [Orchestrator.run] using herr
      rw [he]
    · right
      refine ⟨catalog, rfl, ?_⟩
      rcases hsel : RangeSelector.select catalog cfg.startIndex cfg.endIndex with e3 | selected
      · cases e3
        rfl
      · simp [Orchestrator.run, hsel] at herr

/-- C5 counterexample: with a successfully loaded catalog but
`startIndex = -1`, the run terminates early with `InvalidRange` even though
the catalog load did not fail, refuting the claim that the run terminates
early only on a catalog-load failure. -/
theorem run_early_termination_counterexample :
    Orchestrator.run ⟨"out", -1, none, false, false⟩
        (.ok [⟨none, none, none, none, none⟩]) (fun _ _ => .failure .networkError) [] =
      .error .InvalidRange
    ∧ ∀ e : RunError, (Except.ok [(⟨none, none, none, none, none⟩ : CatalogItem)] :
        Except RunError (List CatalogItem)) ≠ .error e := by
  constructor
  · rfl
  · intro e
    simp

/-- Witness for C5 (amended) at a singleton catalog whose item fails. -/
theorem run_isolation_witness :
    ∃ s n fs2, Orchestrator.run ⟨"out", 0, none, false, false⟩
        (.ok [⟨none, none, none, none, none⟩]) (fun _ _ => .failure .networkError) [] =
        .ok (s, n, fs2)
      ∧ s.outcomes.length = [(⟨none, none, none, none, none⟩ : CatalogItem)].length :=
  (run_isolation ⟨"out", 0, none, false, false⟩ (.ok [⟨none, none, none, none, none⟩])
    (fun _ _ => .failure .networkError) []).1 [⟨none, none, none, none, none⟩]
    [⟨none, none, none, none, none⟩] rfl (by rfl)

/-- Digit characters are digits. -/
theorem digitChar_isDigit (n : Nat) : (digitChar n).isDigit = true := by
  have h : n % 10 < 10 := Nat.mod_lt _ (by norm_num)
  have h2 : ∀ k, k < 10 → (Char.ofNat (48 + k)).isDigit = true := by decide
  unfold digitChar
  exact h2 _ h

/-- Digit characters are not the decimal comma. -/
theorem digitChar_ne_comma (n : Nat) : digitChar n ≠ ',' := by
  have h : n % 10 < 10 := Nat.mod_lt _ (by norm_num)
  have h2 : ∀ k, k < 10 → Char.ofNat (48 + k) ≠ ',' := by decide
  unfold digitChar
  exact h2 _ h

/-- Every character emitted by the digit expansion is a digit character. -/
theorem natDigitsRevAux_chars : ∀ (fuel n : Nat) (c : Char),
    c ∈ natDigitsRevAux fuel n → ∃ k, c = digitChar k := by
  intro fuel
  induction fuel with
  | zero => intro n c hc; simp [natDigitsRevAux] at hc
  | succ m ih =>
    intro n c hc
    by_cases hn : n = 0
    · simp [natDigitsRevAux, hn] at hc
    · simp only [natDigitsRevAux, hn, if_false, List.mem_cons] at hc
      rcases hc with hc | hc
      · exact ⟨n % 10, by rw [hc]⟩
      · exact ih _ _ hc

/-- Decimal expansions contain no comma. -/
theorem natDigits_ne_comma (n : Nat) : ∀ c ∈ natDigits n, c ≠ ',' := by
  intro c hc
  unfold natDigits at hc
  by_cases hn : n = 0
  · simp [hn] at hc
    rw [hc]
    decide
  · simp only [hn, if_false, List.mem_reverse] at hc
    obtain ⟨k, hk⟩ := natDigitsRevAux_chars _ _ _ hc
    rw [hk]
    exact digitChar_ne_comma k

/-- Grouping only inserts the dot separator. -/
theorem groupRevAux_mem : ∀ (fuel : Nat) (ds : List Char) (c : Char),
    c ∈ groupRevAux fuel ds → c ∈ ds ∨ c = '.' := by
  intro fuel
  induction fuel with
  | zero => intro ds c hc; exact Or.inl hc
  | succ m ih =>
    intro ds c hc
    by_cases h3 : ds.length ≤ 3
    · simp only [groupRevAux, h3, if_true] at hc
      exact Or.inl hc
    · simp only [groupRevAux, h3, if_false, List.mem_append, List.mem_cons] at hc
      rcases hc with hc | hc | hc
      · exact Or.inl (List.mem_of_mem_take hc)
      · exact Or.inr hc
      · rcases ih _ _ hc with h | h
        · exact Or.inl (List.mem_of_mem_drop h)
        · exact Or.inr h

/-- Thousands grouping introduces no comma. -/
theorem groupThousands_ne_comma (ds : List Char) (h : ∀ c ∈ ds, c ≠ ',') :
    ∀ c ∈ groupThousands ds, c ≠ ',' := by
  intro c hc
  unfold groupThousands at hc
  rw [List.mem_reverse] at hc
  rcases groupRevAux_mem _ _ _ hc with h2 | h2
  · exact h c (List.mem_reverse.mp h2)
  · rw [h2]
    decide

/-- The formatted number splits at its unique comma into an integer part
without commas and exactly two fraction digits. -/
theorem intlFormatDeDE_fraction (r : ℚ) :
    ∃ pre frac, intlFormatDeDE r = String.mk (pre ++ ',' :: frac)
      ∧ frac.length = 2 ∧ frac.all Char.isDigit = true ∧ ',' ∉ pre := by
  refine ⟨(if scaledCents r < 0 then ['-'] else []) ++
      groupThousands (natDigits ((scaledCents r).natAbs / 100)),
    twoDigitChars ((scaledCents r).natAbs % 100), rfl, rfl, ?_, ?_⟩
  · simp [twoDigitChars, digitChar_isDigit]
  · intro hmem
    rw [List.mem_append] at hmem
    rcases hmem with h | h
    · split at h <;> simp at h
    · exact groupThousands_ne_comma _ (natDigits_ne_comma _) ',' h rfl

/-- Characters of an appended string. -/
theorem string_append_data (a b : String) : (a ++ b).data = a.data ++ b.data := by
  rfl

/-- C9: `formatToAreaNumber` from `src/main.js` produces the unit suffix
` ha` with displayed value `n / 10000` exactly when `n > 2000`, and the
suffix ` qm` with the value unchanged otherwise; in both cases the formatted
value carries exactly two fraction digits after the decimal comma. -/
theorem formatToAreaNumber_spec (q : ℚ) :
    ((∃ p, MainJs.formatToAreaNumber q = p ++ " ha") ↔ 2000 < q)
    ∧ (2000 < q → MainJs.formatToAreaNumber q = intlFormatDeDE (q / 10000) ++ " ha")
    ∧ (q ≤ 2000 → MainJs.formatToAreaNumber q = intlFormatDeDE q ++ " qm")
    ∧ (∀ r : ℚ, ∃ pre frac, intlFormatDeDE r = String.mk (pre ++ ',' :: frac)
        ∧ frac.length = 2 ∧ frac.all Char.isDigit = true ∧ ',' ∉ pre) := by
  have hassoc : ∀ (v : String) (x y : String), v ++ x ++ y = v ++ (x ++ y) := by
    intro v x y
    apply String.ext
    simp [string_append_data]
  have hha : 2000 < q → MainJs.formatToAreaNumber q = intlFormatDeDE (q / 10000) ++ " ha" := by
    intro h
    unfold MainJs.formatToAreaNumber
    rw [if_pos h, hassoc]
    rfl
  have hqm : q ≤ 2000 → MainJs.formatToAreaNumber q = intlFormatDeDE q ++ " qm" := by
    intro h
    unfold MainJs.formatToAreaNumber
    rw [if_neg (not_lt.mpr h), hassoc]
    rfl
  refine ⟨⟨?_, fun h => ⟨intlFormatDeDE (q / 10000), hha h⟩⟩, hha, hqm, intlFormatDeDE_fraction⟩
  intro ⟨p, hp⟩
  by_contra hq
  rw [hqm (not_lt.mp hq)] at hp
  have hd : (intlFormatDeDE q).data ++ " qm".data = p.data ++ " ha".data := by
    rw [← string_append_data, ← string_append_data, hp]
  have := (List.append_inj' hd rfl).2
  simp at this

/-- Witness for C9 at 30000 (ha branch) and 1999 (qm branch). -/
theorem formatToAreaNumber_spec_witness :
    MainJs.formatToAreaNumber 30000 = intlFormatDeDE ((30000 : ℚ) / 10000) ++ " ha"
    ∧ MainJs.formatToAreaNumber 1999 = intlFormatDeDE 1999 ++ " qm" :=
  ⟨(formatToAreaNumber_spec 30000).2.1 (by norm_num),
   (formatToAreaNumber_spec 1999).2.2.1 (by norm_num)⟩

/-- C10: when the HTTP request fails or the response body cannot be parsed
as JSON, both `fetchBiotopeMeta` (`src/main.js`) and `fetchParcelMeta` (the
unnamed script) run the cleanup routine — current layer removed, detail
list emptied, sidebar hidden — and neither ever propagates an exception to
its caller, for any response and state. -/
theorem fetchMeta_error_cleanup (parse : String → Option Nat)
    (resp : FetchResponse MainJs.BiotopeData) (ui : MainJs.UIState)
    (resp2 : FetchResponse Part000.ParcelData) (ui2 : Part000.UIState)
    (h : resp = .httpError ∨ resp = .jsonError)
    (h2 : resp2 = .httpError ∨ resp2 = .jsonError) :
    MainJs.fetchBiotopeMeta parse resp ui = (.value (), MainJs.cleanBiotopeMeta ui)
    ∧ Part000.fetchParcelMeta resp2 ui2 = (.value (), Part000.cleanParcelMeta ui2)
    ∧ (∀ (r : FetchResponse MainJs.BiotopeData) (u : MainJs.UIState),
        (MainJs.fetchBiotopeMeta parse r u).1 ≠ .thrown)
    ∧ (∀ (r : FetchResponse Part000.ParcelData) (u : Part000.UIState),
        (Part000.fetchParcelMeta r u).1 ≠ .thrown)
    ∧ (MainJs.cleanBiotopeMeta ui).currentLayer = none
    ∧ (MainJs.cleanBiotopeMeta ui).detailList = ""
    ∧ (MainJs.cleanBiotopeMeta ui).sidebarHidden = true
    ∧ (Part000.cleanParcelMeta ui2).currentLayer = none
    ∧ (Part000.cleanParcelMeta ui2).detailList = ""
    ∧ (Part000.cleanParcelMeta ui2).sidebarHidden = true := by
  refine ⟨?_, ?_, ?_, ?_, rfl, rfl, rfl, rfl, rfl, rfl⟩
  · rcases h with h | h <;> rw [h] <;> rfl
  · rcases h2 with h | h <;> rw [h] <;> rfl
  · intro r u
    rcases r with d | _ | _
    · rcases hp : parse d.geojson with _ | l <;>
        simp [MainJs.fetchBiotopeMeta, responseJson, jsThen, jsCatch,
          MainJs.renderBiotopeMeta, hp]
    · simp [MainJs.fetchBiotopeMeta, responseJson, jsThen, jsCatch]
    · simp [MainJs.fetchBiotopeMeta, responseJson, jsThen, jsCatch]
  · intro r u
    rcases r with d | _ | _
    · rcases hg : d.geojson with _ | g <;>
        simp [Part000.fetchParcelMeta, responseJson, jsThen, jsCatch,
          Part000.renderParcelMeta, hg]
    · simp [Part000.fetchParcelMeta, responseJson, jsThen, jsCatch]
    · simp [Part000.fetchParcelMeta, responseJson, jsThen, jsCatch]

/-- Witness for C10: a failed request and an unparsable body both clean the
concrete UI states. -/
theorem fetchMeta_error_cleanup_witness :
    MainJs.fetchBiotopeMeta (fun _ => none) .httpError
        ⟨some 5, true, "x", false, true, true, false⟩ =
      (.value (), MainJs.cleanBiotopeMeta ⟨some 5, true, "x", false, true, true, false⟩)
    ∧ Part000.fetchParcelMeta .jsonError ⟨none, "y", false, true, true, false⟩ =
      (.value (), Part000.cleanParcelMeta ⟨none, "y", false, true, true, false⟩) := by
  have h := fetchMeta_error_cleanup (fun _ => none) .httpError
    ⟨some 5, true, "x", false, true, true, false⟩ .jsonError
    ⟨none, "y", false, true, true, false⟩ (Or.inl rfl) (Or.inr rfl)
  exact ⟨h.1, h.2.1⟩
